import Mathlib

/-!
Shallow embedding of `src/sync_signal.rs` (leptos-use): the two-way signal
synchronization engine `sync_signal_with_options`, its options record
`SyncSignalOptions`, the direction enum `SyncDirection`, and the disposer it
returns.

Modelling choices, from the source and the host framework's documented
semantics:
* A signal pair is a state record holding the current `left : L` and
  `right : R` values.  We additionally count the engine-induced writes
  (the `right.update` / `left.update` calls performed inside the two watcher
  callbacks) so that "no write occurs" and "at most one induced write" are
  statable.  External writes by the caller are not counted.
* The Rust `Rc<dyn Fn(&L) -> R>` transforms are pure functions `L → R`.
* `watch(deps, callback, immediate)` registers an observer that fires its
  callback synchronously whenever the tracked source signal is written
  (leptos signals notify unconditionally on `set`/`update`); with
  `immediate = true` the callback additionally fires once at registration.
  The set of currently registered observers is a pair of booleans.
* A write performed inside a callback notifies the other observer (if
  registered) synchronously, so propagation is a recursive chain; the chain
  is fuel-bounded and returns `none` when it does not terminate within the
  fuel, which models the unbounded recursion the real code would perform for
  non-convergent transforms.
-/

namespace SyncSignal

/-- Direction of syncing: the `SyncDirection` enum of `sync_signal.rs`
(lines 201-205). -/
inductive SyncDirection where
  | LeftToRight
  | RightToLeft
  | Both
deriving DecidableEq, Repr

/-- Options for `sync_signal_with_options`: the `SyncSignalOptions<L, R>`
struct (lines 209-227).  The reference-counted transform closures are
modelled as pure functions. -/
structure SyncSignalOptions (L R : Type) where
  immediate : Bool
  direction : SyncDirection
  transform_ltr : L → R
  transform_rtl : R → L

/-- Embedding of `impl<T: Clone> Default for SyncSignalOptions<T, T>`
(lines 249-258): `immediate = true`, `direction = Both`, both transforms the
identity (`|x| x.clone()`).  As in the source, the default is only defined
when the left and right value types coincide. -/
def SyncSignalOptions.default (T : Type) : SyncSignalOptions T T :=
  { immediate := true
    direction := SyncDirection.Both
    transform_ltr := fun x => x
    transform_rtl := fun x => x }

/-- Embedding of the hand-written builder method
`SyncSignalOptions::transform_ltr` (lines 232-237):
`Self { transform_ltr: Rc::new(f), ..self }`.  Named `setTransformLtr` here
because Lean reserves `SyncSignalOptions.transform_ltr` for the field
projection. -/
def SyncSignalOptions.setTransformLtr {L R : Type} (o : SyncSignalOptions L R)
    (f : L → R) : SyncSignalOptions L R :=
  { o with transform_ltr := f }

/-- Embedding of the hand-written builder method
`SyncSignalOptions::transform_rtl` (lines 241-246):
`Self { transform_rtl: Rc::new(f), ..self }`. -/
def SyncSignalOptions.setTransformRtl {L R : Type} (o : SyncSignalOptions L R)
    (f : R → L) : SyncSignalOptions L R :=
  { o with transform_rtl := f }

/-- Which of the two `watch` observers created by `sync_signal_with_options`
are currently registered.  `ltr` is the observer created at line 163
(tracks `left`, writes `right`); `rtl` is the observer created at line 177
(tracks `right`, writes `left`). -/
structure Watchers where
  ltr : Bool
  rtl : Bool
deriving DecidableEq, Repr

/-- The observers installed for a direction, per the two
`matches!(direction, ...)` tests at lines 162 and 176. -/
def watchersFor : SyncDirection → Watchers
  | SyncDirection.LeftToRight => { ltr := true, rtl := false }
  | SyncDirection.RightToLeft => { ltr := false, rtl := true }
  | SyncDirection.Both => { ltr := true, rtl := true }

/-- Number of observers registered. -/
def numWatchers (w : Watchers) : Nat :=
  (if w.ltr then 1 else 0) + (if w.rtl then 1 else 0)

/-- State of the two synced signals: the current values, plus counters of the
engine-induced writes (the `update` calls executed inside the two watcher
callbacks, lines 169 and 183).  External caller writes are not counted. -/
structure SyncState (L R : Type) where
  left : L
  right : R
  writesToLeft : Nat := 0
  writesToRight : Nat := 0
deriving DecidableEq, Repr

/-- Which signal was just written, i.e. whose observer is being notified. -/
inductive Side where
  | onLeft
  | onRight
deriving DecidableEq, Repr

/-- The synchronous notification chain of the two watcher callbacks.
`Side.onLeft` means `left` was just written, so the left-to-right callback
(lines 165-171) fires if registered: it computes
`new_value = transform_ltr(left)` and, if `right != new_value`, performs
`right.update(...)` — which in turn notifies `right`'s observer, recursively.
`Side.onRight` is symmetric (lines 179-185).  `none` means the cascade did
not terminate within `fuel` callback invocations. -/
def fireChain {L R : Type} [DecidableEq L] [DecidableEq R]
    (cfg : SyncSignalOptions L R) (w : Watchers) :
    Nat → Side → SyncState L R → Option (SyncState L R)
  | 0, _, _ => none
  | fuel + 1, Side.onLeft, s =>
    if w.ltr then
      let new_value := cfg.transform_ltr s.left
      if s.right ≠ new_value then
        fireChain cfg w fuel Side.onRight
          { s with right := new_value, writesToRight := s.writesToRight + 1 }
      else some s
    else some s
  | fuel + 1, Side.onRight, s =>
    if w.rtl then
      let new_value := cfg.transform_rtl s.right
      if s.left ≠ new_value then
        fireChain cfg w fuel Side.onLeft
          { s with left := new_value, writesToLeft := s.writesToLeft + 1 }
      else some s
    else some s

/-- An external caller write to `left` (e.g. `set_a.set(v)`): the value is
stored and `left`'s dependents — the left-to-right observer, when
registered — are notified. -/
def setLeft {L R : Type} [DecidableEq L] [DecidableEq R]
    (cfg : SyncSignalOptions L R) (w : Watchers) (fuel : Nat) (v : L)
    (s : SyncState L R) : Option (SyncState L R) :=
  fireChain cfg w fuel Side.onLeft { s with left := v }

/-- An external caller write to `right` (e.g. `set_b.set(v)`). -/
def setRight {L R : Type} [DecidableEq L] [DecidableEq R]
    (cfg : SyncSignalOptions L R) (w : Watchers) (fuel : Nat) (v : R)
    (s : SyncState L R) : Option (SyncState L R) :=
  fireChain cfg w fuel Side.onRight { s with right := v }

/-- Embedding of `sync_signal_with_options` (lines 140-198): installs the
observer(s) selected by `cfg.direction` and, when `immediate` is true, fires
each once at registration, in source order.  The left-to-right watch is
created first (line 163), so its immediate fire happens while the
right-to-left observer is not yet registered: its write to `right` notifies
no one.  The right-to-left watch is created second (line 177), so its
immediate fire happens with both observers registered: its write to `left`
notifies the left-to-right observer and can start a chain.  Returns the
resulting state, or `none` if that chain exceeds `fuel`. -/
def establish {L R : Type} [DecidableEq L] [DecidableEq R]
    (cfg : SyncSignalOptions L R) (fuel : Nat) (s : SyncState L R) :
    Option (SyncState L R) :=
  let w := watchersFor cfg.direction
  let s1 :=
    if cfg.immediate && w.ltr then
      let new_value := cfg.transform_ltr s.left
      if s.right ≠ new_value then
        { s with right := new_value, writesToRight := s.writesToRight + 1 }
      else s
    else s
  if cfg.immediate && w.rtl then
    let new_value := cfg.transform_rtl s1.right
    if s1.left ≠ new_value then
      fireChain cfg w fuel Side.onLeft
        { s1 with left := new_value, writesToLeft := s1.writesToLeft + 1 }
    else some s1
  else some s1

/-- Embedding of the disposer returned by `sync_signal_with_options`
(lines 190-197): it calls the stop function of each observer that was
installed, after which no observer is registered. -/
def dispose (_w : Watchers) : Watchers :=
  { ltr := false, rtl := false }

/-- Options used in the doc-example of the source (lines 109-124):
`transform_ltr = |left| *left * 2`, `transform_rtl = |right| *right / 2`,
with the remaining fields at their defaults. -/
def exampleOpts : SyncSignalOptions Nat Nat :=
  ((SyncSignalOptions.default Nat).setTransformLtr fun l => l * 2).setTransformRtl
    fun r => r / 2

end SyncSignal

namespace SyncSignal

/-- C9: `SyncSignalOptions::default()` yields `immediate = true`,
`direction = Both`, and identity transforms; it is defined only at equal
left/right value types (the Lean `default` has type
`SyncSignalOptions T T`, mirroring `impl Default for SyncSignalOptions<T, T>`). -/
theorem c9_default_options (T : Type) (x : T) :
    (SyncSignalOptions.default T).immediate = true ∧
    (SyncSignalOptions.default T).direction = SyncDirection.Both ∧
    (SyncSignalOptions.default T).transform_ltr x = x ∧
    (SyncSignalOptions.default T).transform_rtl x = x :=
  ⟨rfl, rfl, rfl, rfl⟩

/-- C10: the builder methods `transform_ltr` and `transform_rtl` each replace
only their own transform field; `immediate`, `direction` and the opposite
transform are unchanged. -/
theorem c10_builder_frame (L R : Type) (o : SyncSignalOptions L R)
    (f : L → R) (g : R → L) :
    (o.setTransformLtr f).immediate = o.immediate ∧
    (o.setTransformLtr f).direction = o.direction ∧
    (o.setTransformLtr f).transform_rtl = o.transform_rtl ∧
    (o.setTransformLtr f).transform_ltr = f ∧
    (o.setTransformRtl g).immediate = o.immediate ∧
    (o.setTransformRtl g).direction = o.direction ∧
    (o.setTransformRtl g).transform_ltr = o.transform_ltr ∧
    (o.setTransformRtl g).transform_rtl = g :=
  ⟨rfl, rfl, rfl, rfl, rfl, rfl, rfl, rfl⟩

/-- C8: the installed observers are exactly determined by the direction:
`Both` installs both, `LeftToRight` only the left-to-right one, `RightToLeft`
only the right-to-left one; every direction installs at least one and at most
two observers. -/
theorem c8_watchers_exact (d : SyncDirection) :
    watchersFor SyncDirection.Both = { ltr := true, rtl := true } ∧
    watchersFor SyncDirection.LeftToRight = { ltr := true, rtl := false } ∧
    watchersFor SyncDirection.RightToLeft = { ltr := false, rtl := true } ∧
    1 ≤ numWatchers (watchersFor d) ∧ numWatchers (watchersFor d) ≤ 2 := by
  cases d <;> decide

/-- C1: with identity transforms, direction = Both and immediate = true,
establishing the sync from any pair of distinct initial values `a`, `b`
leaves both signals holding `a`, the left signal's original value: the
left-to-right observer immediate-fires first (writing `a` into `right`,
one induced write), after which the right-to-left observer's immediate fire
finds the values already equal and writes nothing. -/
theorem c1_left_wins (T : Type) [DecidableEq T] (a b : T) (h : a ≠ b)
    (fuel : Nat) :
    establish (SyncSignalOptions.default T) fuel { left := a, right := b } =
      some { left := a, right := a, writesToLeft := 0, writesToRight := 1 } := by
  have hba : b ≠ a := fun e => h e.symm
  simp [establish, SyncSignalOptions.default, watchersFor, hba]

/-- Witness for `c1_left_wins` at `a = 1`, `b = 2`. -/
theorem c1_left_wins_witness :
    establish (SyncSignalOptions.default Nat) 0 { left := 1, right := 2 } =
      some { left := 1, right := 1, writesToLeft := 0, writesToRight := 1 } :=
  c1_left_wins Nat 1 2 (by decide) 0

/-- C3: the doc-example configuration (`transform_ltr = *2`,
`transform_rtl = /2`, immediate, Both) from initial `left = 10`, `right = 2`:
establish ends with `left = 10`, `right = 20` (left's transformed value
wins), and a subsequent external write `right := 30` ends with `left = 15`,
`right = 30`. -/
theorem c3_transform_example :
    establish exampleOpts 5 { left := 10, right := 2 } =
      some { left := 10, right := 20, writesToLeft := 0, writesToRight := 1 } ∧
    setRight exampleOpts (watchersFor SyncDirection.Both) 5 30
        { left := 10, right := 20, writesToLeft := 0, writesToRight := 1 } =
      some { left := 15, right := 30, writesToLeft := 1, writesToRight := 1 } := by
  decide

/-- C5: if the two signals already hold transformed-equal values when the
sync is established, the immediate fires perform no write at all: `establish`
returns the state unchanged (values and induced-write counters), for every
direction. -/
theorem c5_no_write_when_already_synced (L R : Type) [DecidableEq L]
    [DecidableEq R] (cfg : SyncSignalOptions L R) (fuel : Nat)
    (s : SyncState L R) (himm : cfg.immediate = true)
    (h1 : cfg.transform_ltr s.left = s.right)
    (h2 : cfg.transform_rtl s.right = s.left) :
    establish cfg fuel s = some s := by
  cases hd : cfg.direction <;>
    simp [establish, watchersFor, hd, himm, h1, h2]

/-- Witness for `c5_no_write_when_already_synced` with identity transforms
and both signals holding 5. -/
theorem c5_no_write_when_already_synced_witness :
    establish (SyncSignalOptions.default Nat) 0
        { left := 5, right := 5, writesToLeft := 0, writesToRight := 0 } =
      some { left := 5, right := 5, writesToLeft := 0, writesToRight := 0 } :=
  c5_no_write_when_already_synced Nat Nat (SyncSignalOptions.default Nat) 0
    { left := 5, right := 5, writesToLeft := 0, writesToRight := 0 }
    rfl rfl rfl

/-- C7: once the disposer has run, no observer is registered, so an external
write to either signal stores the value and induces nothing on the other
signal; and running the disposer again is a no-op (disposing a disposed
watcher set yields the same watcher set), for every direction. -/
theorem c7_dispose_stops_and_idempotent (L R : Type) [DecidableEq L]
    [DecidableEq R] (cfg : SyncSignalOptions L R) (d : SyncDirection)
    (f : Nat) (v : L) (u : R) (s : SyncState L R) :
    dispose (dispose (watchersFor d)) = dispose (watchersFor d) ∧
    setLeft cfg (dispose (watchersFor d)) (f + 1) v s =
      some { s with left := v } ∧
    setRight cfg (dispose (watchersFor d)) (f + 1) u s =
      some { s with right := u } := by
  refine ⟨rfl, ?_, ?_⟩ <;> simp [setLeft, setRight, fireChain, dispose]

/-- C4: with direction = LeftToRight, an external write to `right` stores the
value and changes nothing else — in particular `left` is untouched — while an
external write to `left` whose transformed value differs from `right`'s
current value induces exactly one write of that transformed value into
`right`; symmetrically, with direction = RightToLeft an external write to
`left` never changes `right`. -/
theorem c4_one_directional_isolation (L R : Type) [DecidableEq L]
    [DecidableEq R] (cfg : SyncSignalOptions L R) (f : Nat) (v : R) (u : L)
    (s : SyncState L R) :
    setRight cfg (watchersFor SyncDirection.LeftToRight) (f + 1) v s =
      some { s with right := v } ∧
    (cfg.transform_ltr u ≠ s.right →
      setLeft cfg (watchersFor SyncDirection.LeftToRight) (f + 2) u s =
        some { s with left := u, right := cfg.transform_ltr u,
                      writesToRight := s.writesToRight + 1 }) ∧
    setLeft cfg (watchersFor SyncDirection.RightToLeft) (f + 1) u s =
      some { s with left := u } := by
  refine ⟨?_, fun h => ?_, ?_⟩
  · simp [setRight, fireChain, watchersFor]
  · have h2 : s.right ≠ cfg.transform_ltr u := fun e => h e.symm
    simp [setLeft, fireChain, watchersFor, h2]
  · simp [setLeft, fireChain, watchersFor]

/-- Witness for `c4_one_directional_isolation` with identity transforms,
`v = 7`, `u = 5`, from the state `left = 0`, `right = 0`. -/
theorem c4_one_directional_isolation_witness :
    setRight (SyncSignalOptions.default Nat)
        (watchersFor SyncDirection.LeftToRight) 1 7 { left := 0, right := 0 } =
      some { left := 0, right := 7 } ∧
    ((SyncSignalOptions.default Nat).transform_ltr 5 ≠ (0 : Nat) →
      setLeft (SyncSignalOptions.default Nat)
          (watchersFor SyncDirection.LeftToRight) 2 5 { left := 0, right := 0 } =
        some { left := 5, right := 5, writesToLeft := 0, writesToRight := 1 }) ∧
    setLeft (SyncSignalOptions.default Nat)
        (watchersFor SyncDirection.RightToLeft) 1 5 { left := 0, right := 0 } =
      some { left := 5, right := 0 } :=
  c4_one_directional_isolation Nat Nat (SyncSignalOptions.default Nat) 0 7 5
    { left := 0, right := 0 }

/-- Transform pair whose right-to-left round trip is not convergent:
`transform_ltr` is constantly 0, `transform_rtl` the identity.  Used to show
that without a convergence assumption an external write can cascade past one
round trip. -/
def constOpts : SyncSignalOptions Nat Nat :=
  { immediate := true
    direction := SyncDirection.Both
    transform_ltr := fun _ => 0
    transform_rtl := fun r => r }

/-- Helper: with both observers active and a left-to-right round trip that is
the identity at the written value `v`, one external write to `right`
stabilizes after at most one induced write: `left` ends at
`transform_rtl v`, `right` keeps `v`, and when `left` already held
`transform_rtl v` nothing at all is induced. -/
theorem setRight_converges (L R : Type) [DecidableEq L] [DecidableEq R]
    (cfg : SyncSignalOptions L R) (f : Nat) (v : R) (s : SyncState L R)
    (hv : cfg.transform_ltr (cfg.transform_rtl v) = v) :
    ∃ s1, setRight cfg (watchersFor SyncDirection.Both) (f + 2) v s = some s1 ∧
      s1.left = cfg.transform_rtl v ∧ s1.right = v ∧
      (s.left = cfg.transform_rtl v → s1 = { s with right := v }) := by
  by_cases hc : s.left = cfg.transform_rtl v
  · exact ⟨{ s with right := v },
      by simp [setRight, fireChain, watchersFor, hc], hc, rfl, fun _ => rfl⟩
  · exact ⟨{ s with right := v, left := cfg.transform_rtl v,
                    writesToLeft := s.writesToLeft + 1 },
      by simp [setRight, fireChain, watchersFor, hc, hv], rfl, rfl,
      fun h => absurd h hc⟩

/-- Helper: mirror image of `setRight_converges` for one external write to
`left` with a right-to-left round trip that is the identity at the written
value. -/
theorem setLeft_converges (L R : Type) [DecidableEq L] [DecidableEq R]
    (cfg : SyncSignalOptions L R) (f : Nat) (w : L) (s : SyncState L R)
    (hw : cfg.transform_rtl (cfg.transform_ltr w) = w) :
    ∃ s2, setLeft cfg (watchersFor SyncDirection.Both) (f + 2) w s = some s2 ∧
      s2.right = cfg.transform_ltr w ∧ s2.left = w ∧
      (s.right = cfg.transform_ltr w → s2 = { s with left := w }) := by
  by_cases hc : s.right = cfg.transform_ltr w
  · exact ⟨{ s with left := w },
      by simp [setLeft, fireChain, watchersFor, hc], hc, rfl, fun _ => rfl⟩
  · exact ⟨{ s with left := w, right := cfg.transform_ltr w,
                    writesToRight := s.writesToRight + 1 },
      by simp [setLeft, fireChain, watchersFor, hc, hw], rfl, rfl,
      fun h => absurd h hc⟩

/-- C2, counterexample to the unqualified claim: with direction = Both,
immediate = true and the (terminating but non-convergent) transforms of
`constOpts`, the external write `right := 3` from `left = 10`, `right = 7`
terminates, yet leaves `left` different from `transform_rtl 3 = 3` (the
cascade continues past one round trip and drags `left` to 0). -/
theorem c2_propagation_counterexample :
    (setRight constOpts (watchersFor SyncDirection.Both) 10 3
        { left := 10, right := 7 }).isSome = true ∧
    (setRight constOpts (watchersFor SyncDirection.Both) 10 3
        { left := 10, right := 7 }).map SyncState.left ≠
      some (constOpts.transform_rtl 3) := by
  decide

/-- C2, amended: with direction = Both and immediate = true, provided the
transforms are round-trip convergent at the written values
(`transform_ltr (transform_rtl v) = v` and
`transform_rtl (transform_ltr w) = w`), an external write setting `right`
to `v` makes `left` become `transform_rtl v` (with `right` keeping `v`), and
a subsequent external write setting `left` to `w` makes `right` become
`transform_ltr w` (with `left` keeping `w`); when the transformed value
already equals the destination's current value, no write to the destination
occurs and no further propagation happens (the state changes only by the
external write itself). -/
theorem c2_propagation_amended (L R : Type) [DecidableEq L] [DecidableEq R]
    (cfg : SyncSignalOptions L R) (f : Nat) (v : R) (w : L)
    (s : SyncState L R)
    (hv : cfg.transform_ltr (cfg.transform_rtl v) = v)
    (hw : cfg.transform_rtl (cfg.transform_ltr w) = w) :
    ∃ s1 s2,
      setRight cfg (watchersFor SyncDirection.Both) (f + 2) v s = some s1 ∧
      s1.left = cfg.transform_rtl v ∧ s1.right = v ∧
      (s.left = cfg.transform_rtl v → s1 = { s with right := v }) ∧
      setLeft cfg (watchersFor SyncDirection.Both) (f + 2) w s1 = some s2 ∧
      s2.right = cfg.transform_ltr w ∧ s2.left = w ∧
      (s1.right = cfg.transform_ltr w → s2 = { s1 with left := w }) := by
  obtain ⟨s1, e1, p1, p2, p3⟩ := setRight_converges L R cfg f v s hv
  obtain ⟨s2, e2, q1, q2, q3⟩ := setLeft_converges L R cfg f w s1 hw
  exact ⟨s1, s2, e1, p1, p2, p3, e2, q1, q2, q3⟩

/-- Witness for `c2_propagation_amended` with identity transforms, writing
`right := 4` then `left := 9` from `left = 1`, `right = 2`. -/
theorem c2_propagation_amended_witness :
    ∃ s1 s2 : SyncState Nat Nat,
      setRight (SyncSignalOptions.default Nat) (watchersFor SyncDirection.Both)
          2 4 { left := 1, right := 2 } = some s1 ∧
      s1.left = 4 ∧ s1.right = 4 ∧
      ((1 : Nat) = 4 → s1 = { left := 1, right := 4 }) ∧
      setLeft (SyncSignalOptions.default Nat) (watchersFor SyncDirection.Both)
          2 9 s1 = some s2 ∧
      s2.right = 9 ∧ s2.left = 9 ∧
      (s1.right = 9 → s2 = { s1 with left := 9 }) :=
  c2_propagation_amended Nat Nat (SyncSignalOptions.default Nat) 0 4 9
    { left := 1, right := 2 } rfl rfl

/-- C6: for a single external write to either signal, under any direction
setting, when the transforms stabilize after one round trip at the written
value, the propagation chain terminates and induces at most one write to
`left` and at most one write to `right` — never an unbounded cascade. -/
theorem c6_at_most_one_round_trip (L R : Type) [DecidableEq L]
    [DecidableEq R] (cfg : SyncSignalOptions L R) (d : SyncDirection)
    (f : Nat) (v : R) (u : L) (s : SyncState L R)
    (hv : cfg.transform_rtl (cfg.transform_ltr (cfg.transform_rtl v)) =
      cfg.transform_rtl v)
    (hu : cfg.transform_ltr (cfg.transform_rtl (cfg.transform_ltr u)) =
      cfg.transform_ltr u) :
    (∃ s1, setRight cfg (watchersFor d) (f + 3) v s = some s1 ∧
      s1.writesToLeft ≤ s.writesToLeft + 1 ∧
      s1.writesToRight ≤ s.writesToRight + 1) ∧
    (∃ s2, setLeft cfg (watchersFor d) (f + 3) u s = some s2 ∧
      s2.writesToLeft ≤ s.writesToLeft + 1 ∧
      s2.writesToRight ≤ s.writesToRight + 1) := by
  cases d
  case LeftToRight =>
    constructor
    · exact ⟨{ s with right := v },
        by simp [setRight, fireChain, watchersFor],
        Nat.le_succ _, Nat.le_succ _⟩
    · by_cases hc : s.right = cfg.transform_ltr u
      · exact ⟨{ s with left := u },
          by simp [setLeft, fireChain, watchersFor, hc],
          Nat.le_succ _, Nat.le_succ _⟩
      · exact ⟨{ s with left := u, right := cfg.transform_ltr u,
                        writesToRight := s.writesToRight + 1 },
          by simp [setLeft, fireChain, watchersFor, hc],
          Nat.le_succ _, Nat.le_refl _⟩
  case RightToLeft =>
    constructor
    · by_cases hc : s.left = cfg.transform_rtl v
      · exact ⟨{ s with right := v },
          by simp [setRight, fireChain, watchersFor, hc],
          Nat.le_succ _, Nat.le_succ _⟩
      · exact ⟨{ s with right := v, left := cfg.transform_rtl v,
                        writesToLeft := s.writesToLeft + 1 },
          by simp [setRight, fireChain, watchersFor, hc],
          Nat.le_refl _, Nat.le_succ _⟩
    · exact ⟨{ s with left := u },
        by simp [setLeft, fireChain, watchersFor],
        Nat.le_succ _, Nat.le_succ _⟩
  case Both =>
    constructor
    · by_cases hc : s.left = cfg.transform_rtl v
      · exact ⟨{ s with right := v },
          by simp [setRight, fireChain, watchersFor, hc],
          Nat.le_succ _, Nat.le_succ _⟩
      · by_cases hc2 : v = cfg.transform_ltr (cfg.transform_rtl v)
        · exact ⟨{ s with right := v, left := cfg.transform_rtl v,
                          writesToLeft := s.writesToLeft + 1 },
            by simp [setRight, fireChain, watchersFor, hc, hc2.symm],
            Nat.le_refl _, Nat.le_succ _⟩
        · exact ⟨{ s with right := cfg.transform_ltr (cfg.transform_rtl v),
                          left := cfg.transform_rtl v,
                          writesToLeft := s.writesToLeft + 1,
                          writesToRight := s.writesToRight + 1 },
            by simp [setRight, fireChain, watchersFor, hc, hc2, hv],
            Nat.le_refl _, Nat.le_refl _⟩
    · by_cases hc : s.right = cfg.transform_ltr u
      · exact ⟨{ s with left := u },
          by simp [setLeft, fireChain, watchersFor, hc],
          Nat.le_succ _, Nat.le_succ _⟩
      · by_cases hc2 : u = cfg.transform_rtl (cfg.transform_ltr u)
        · exact ⟨{ s with left := u, right := cfg.transform_ltr u,
                          writesToRight := s.writesToRight + 1 },
            by simp [setLeft, fireChain, watchersFor, hc, hc2.symm],
            Nat.le_succ _, Nat.le_refl _⟩
        · exact ⟨{ s with left := cfg.transform_rtl (cfg.transform_ltr u),
                          right := cfg.transform_ltr u,
                          writesToLeft := s.writesToLeft + 1,
                          writesToRight := s.writesToRight + 1 },
            by simp [setLeft, fireChain, watchersFor, hc, hc2, hu],
            Nat.le_refl _, Nat.le_refl _⟩

/-- Witness for `c6_at_most_one_round_trip` with identity transforms and
direction = Both, writing `right := 7` (resp. `left := 8`) from `left = 1`,
`right = 2`. -/
theorem c6_at_most_one_round_trip_witness :
    (∃ s1, setRight (SyncSignalOptions.default Nat)
        (watchersFor SyncDirection.Both) 3 7 { left := 1, right := 2 } =
          some s1 ∧
      s1.writesToLeft ≤ 1 ∧ s1.writesToRight ≤ 1) ∧
    (∃ s2, setLeft (SyncSignalOptions.default Nat)
        (watchersFor SyncDirection.Both) 3 8 { left := 1, right := 2 } =
          some s2 ∧
      s2.writesToLeft ≤ 1 ∧ s2.writesToRight ≤ 1) :=
  c6_at_most_one_round_trip Nat Nat (SyncSignalOptions.default Nat)
    SyncDirection.Both 0 7 8 { left := 1, right := 2 } rfl rfl

end SyncSignal
